import Mathlib

/-!
Shallow embedding of the "Personal App Integration Manager" dispatcher and
its three service clients (Notion config store, qBittorrent download
manager, Discord notifications).

Remote HTTP interactions are modelled by explicit environment values: each
environment field holds the outcome the remote side would produce
(`Except Unit _`, where `.error` stands for a thrown/transport error that
the corresponding `catch` block in the source swallows).  Every externally
visible action of the program is recorded as an `Event` in a trace, so the
theorems can speak about which calls are made and how often.
-/

namespace Xenopen

/-- A torrent record returned by the download manager; the dispatcher only
ever inspects the list's length, so the payload is left opaque. -/
abbrev Torrent := String

/-- Externally visible actions performed by the program. -/
inductive Event where
  /-- the dispatcher logs `Processing config: name (type)` for an enabled item -/
  | logProcessing (name ty : String)
  /-- `qbittorrent.getTorrents()` method invocation -/
  | qbtGetTorrentsCall
  /-- `qbittorrent.addTorrent(url)` method invocation -/
  | qbtAddTorrentCall (url : String)
  /-- HTTP `POST /api/v2/auth/login` -/
  | qbtLoginHttp
  /-- HTTP `GET /api/v2/torrents/info` -/
  | qbtListHttp
  /-- HTTP `POST /api/v2/torrents/add` -/
  | qbtAddHttp (url : String)
  /-- `discord.sendMessage(text)` method invocation -/
  | discordSendMessageCall (text : String)
  /-- `client.channels.fetch(channelId)` -/
  | discordChannelFetch
  /-- `channel.send(message)` -/
  | discordChannelSend (text : String)
deriving DecidableEq, Repr

/-! ## Notion service (`NotionService`) -/

/-- `NotionConfigItem` from `services/notion.ts`. -/
structure NotionConfigItem where
  id : String
  name : String
  value : String
  isEnabled : Bool
  type : String
deriving DecidableEq, Repr

/-- A page as returned by the Notion database query: each field is the
optional chain `properties.X?...` from the source (`none` when any link of
the optional chain is missing). -/
structure RawPage where
  id : String
  nameTitle : Option String
  valueText : Option String
  enabledCheckbox : Option Bool
  typeSelect : Option String
deriving DecidableEq, Repr

/-- JavaScript `x || d` on an optional string: `undefined` and the empty
string are falsy. -/
def jsOr (v : Option String) (d : String) : String :=
  match v with
  | some s => if s = "" then d else s
  | none => d

/-- The mapping applied to each page in `getConfigurations`
(`response.results.map(...)`). -/
def mapPage (p : RawPage) : NotionConfigItem :=
  { id := p.id
    name := jsOr p.nameTitle "Untitled"
    value := jsOr p.valueText ""
    isEnabled := p.enabledCheckbox.getD false
    type := jsOr p.typeSelect "Unknown" }

/-- `NotionService.getConfigurations`: queries the database; on any
transport or parsing error the `catch` block logs and returns `[]`. -/
def getConfigurations (queryResult : Except Unit (List RawPage)) :
    List NotionConfigItem :=
  match queryResult with
  | .ok pages => pages.map mapPage
  | .error _ => []

/-- The page record written by `NotionService.addItem(name, value, type)`:
Name/Value/Type as given, `Enabled: { checkbox: true }`. -/
structure WrittenPage where
  name : String
  value : String
  type : String
  enabledCheckbox : Bool
deriving DecidableEq, Repr

/-- `NotionService.addItem` (default `type = 'Info'`): the properties of the
page it creates. -/
def addItem (name value : String) (type : String := "Info") : WrittenPage :=
  { name := name, value := value, type := type, enabledCheckbox := true }

/-- The written page as it would come back from a later database query. -/
def writtenAsRaw (w : WrittenPage) (id : String) : RawPage :=
  { id := id
    nameTitle := some w.name
    valueText := some w.value
    enabledCheckbox := some w.enabledCheckbox
    typeSelect := some w.type }

/-! ## qBittorrent service (`QBittorrentService`) -/

/-- Mutable state of `QBittorrentService`: the session cookie
(`private cookie: string | null = null`).  `none` covers both `null` and
the falsy empty string, matching the `!this.cookie` guards. -/
structure QBState where
  cookie : Option String
deriving DecidableEq, Repr

/-- Remote outcomes for one round of qBittorrent calls.
`loginResp`: `.error` = request throws; `.ok none` = no `set-cookie`
header; `.ok (some l)` = the `set-cookie` header array `l`.
`listResp` / `addResp`: the torrents query / add post outcome. -/
structure QBEnv where
  loginResp : Except Unit (Option (List String))
  listResp : Except Unit (List Torrent)
  addResp : Except Unit Unit
deriving Repr

/-- `this.cookie = response.headers['set-cookie'][0] || null`. -/
def cookieOfHeader (l : List String) : Option String :=
  match l.head? with
  | some s => if s = "" then none else some s
  | none => none

/-- `QBittorrentService.login`: posts the credentials; stores the first
`set-cookie` value (or `null`) when the header is present and reports
whether a truthy cookie was obtained; returns `false` on a missing header
or a thrown error (caught). -/
def qbLogin (s : QBState) (env : QBEnv) : QBState × Bool × List Event :=
  match env.loginResp with
  | .error _ => (s, false, [Event.qbtLoginHttp])
  | .ok none => (s, false, [Event.qbtLoginHttp])
  | .ok (some l) =>
      let c := cookieOfHeader l
      ({ cookie := c }, c.isSome, [Event.qbtLoginHttp])

/-- The `try { GET /api/v2/torrents/info } catch { return [] }` body of
`getTorrents`. -/
def qbListBody (s : QBState) (env : QBEnv) : QBState × List Torrent × List Event :=
  match env.listResp with
  | .ok ts => (s, ts, [Event.qbtListHttp])
  | .error _ => (s, [], [Event.qbtListHttp])

/-- `QBittorrentService.getTorrents`: lazily logs in when no cookie is
held; if the login fails it returns `[]` without issuing the listing
request; otherwise performs the listing, returning `[]` on a thrown error. -/
def getTorrents (s : QBState) (env : QBEnv) : QBState × List Torrent × List Event :=
  match s.cookie with
  | none =>
      let (s1, ok, evs) := qbLogin s env
      if ok then
        let (s2, ts, evs2) := qbListBody s1 env
        (s2, ts, Event.qbtGetTorrentsCall :: (evs ++ evs2))
      else
        (s1, [], Event.qbtGetTorrentsCall :: evs)
  | some _ =>
      let (s2, ts, evs2) := qbListBody s env
      (s2, ts, Event.qbtGetTorrentsCall :: evs2)

/-- The `try { POST /api/v2/torrents/add; return true } catch { return false }`
body of `addTorrent`. -/
def qbAddBody (s : QBState) (env : QBEnv) (url : String) :
    QBState × Bool × List Event :=
  match env.addResp with
  | .ok _ => (s, true, [Event.qbtAddHttp url])
  | .error _ => (s, false, [Event.qbtAddHttp url])

/-- `QBittorrentService.addTorrent`: same lazy-login pattern; returns
`false` when login fails or the post throws, `true` otherwise. -/
def addTorrent (s : QBState) (env : QBEnv) (url : String) :
    QBState × Bool × List Event :=
  match s.cookie with
  | none =>
      let (s1, ok, evs) := qbLogin s env
      if ok then
        let (s2, b, evs2) := qbAddBody s1 env url
        (s2, b, Event.qbtAddTorrentCall url :: (evs ++ evs2))
      else
        (s1, false, Event.qbtAddTorrentCall url :: evs)
  | some _ =>
      let (s2, b, evs2) := qbAddBody s env url
      (s2, b, Event.qbtAddTorrentCall url :: evs2)

/-! ## Discord service (`DiscordService`) -/

/-- Outcome of `client.channels.fetch(channelId)` followed by
`channel.send`: the fetch yields a text channel and the send succeeds, the
send throws, the fetch yields `null` or a non-text channel, or the fetch
itself throws. -/
inductive ChannelOutcome where
  | sendOk
  | sendThrows
  | notTextChannel
  | fetchThrows
deriving DecidableEq, Repr

/-- Environment of `DiscordService.sendMessage`: the client's ready flag,
the configured channel id (`""` when unconfigured, falsy), and the remote
outcome of the fetch/send. -/
structure DiscordEnv where
  isReady : Bool
  channelId : String
  outcome : ChannelOutcome
deriving Repr

/-- `DiscordService.sendMessage`: warns and returns when not ready or when
no channel id is configured; otherwise fetches the channel and, when it is
a text channel, posts the message; every thrown error is caught. -/
def sendMessage (env : DiscordEnv) (text : String) : List Event :=
  if env.isReady = false then
    [Event.discordSendMessageCall text]
  else if env.channelId = "" then
    [Event.discordSendMessageCall text]
  else
    match env.outcome with
    | .sendOk =>
        [Event.discordSendMessageCall text, Event.discordChannelFetch,
         Event.discordChannelSend text]
    | .sendThrows =>
        [Event.discordSendMessageCall text, Event.discordChannelFetch,
         Event.discordChannelSend text]
    | .notTextChannel =>
        [Event.discordSendMessageCall text, Event.discordChannelFetch]
    | .fetchThrows =>
        [Event.discordSendMessageCall text, Event.discordChannelFetch]

/-! ## Dispatcher (`main`'s cron callback in `index.ts`) -/

/-- The fixed label prefixed to a `DiscordMessage` item's value. -/
def notionMessageLabel : String := "Message from Notion: "

/-- The body of the dispatcher's `for` loop for one configuration item:
skip disabled items; for `name == 'Check Torrents' && type == 'Task'`
query the torrents (the follow-up Discord notification is commented out
in the source, so none is sent); for `type == 'DiscordMessage'` send the
value prefixed with the fixed label. -/
def processConfig (qs : QBState) (denv : DiscordEnv) (qenv : QBEnv)
    (c : NotionConfigItem) : QBState × List Event :=
  if c.isEnabled then
    let log := [Event.logProcessing c.name c.type]
    let (qs1, evs1) :=
      if c.name = "Check Torrents" ∧ c.type = "Task" then
        let (qs', _ts, evs) := getTorrents qs qenv
        (qs', evs)
      else (qs, [])
    let evs2 :=
      if c.type = "DiscordMessage" then
        sendMessage denv (notionMessageLabel ++ c.value)
      else []
    (qs1, log ++ evs1 ++ evs2)
  else
    (qs, [])

/-- The dispatcher's `for` loop over all fetched items; `qenvs n` is the
remote outcome seen by the `n`-th item if it queries the download
manager. -/
def processAll (qs : QBState) (denv : DiscordEnv) (qenvs : Nat → QBEnv) :
    List NotionConfigItem → QBState × List Event
  | [] => (qs, [])
  | c :: cs =>
      let (qs1, evs) := processConfig qs denv (qenvs 0) c
      let (qs2, rest) := processAll qs1 denv (fun n => qenvs (n + 1)) cs
      (qs2, evs ++ rest)

/-- One full dispatcher tick: fetch the configurations (empty on fetch
error) and run the loop. -/
def runTick (qs : QBState) (denv : DiscordEnv) (qenvs : Nat → QBEnv)
    (queryResult : Except Unit (List RawPage)) : QBState × List Event :=
  processAll qs denv qenvs (getConfigurations queryResult)

/-- The texts of the `sendMessage` method invocations in a trace. -/
def sendCallTexts (evs : List Event) : List String :=
  evs.filterMap fun e =>
    match e with
    | Event.discordSendMessageCall t => some t
    | _ => none

/-- The number of `channel.send` posts in a trace. -/
def channelSendCount (evs : List Event) : Nat :=
  (evs.filter fun e =>
    match e with
    | Event.discordChannelSend _ => true
    | _ => false).length

/-- The number of `getTorrents()` method invocations in a trace. -/
def getTorrentsCallCount (evs : List Event) : Nat :=
  (evs.filter fun e =>
    match e with
    | Event.qbtGetTorrentsCall => true
    | _ => false).length

/-- The number of login HTTP posts in a trace. -/
def loginHttpCount (evs : List Event) : Nat :=
  (evs.filter fun e =>
    match e with
    | Event.qbtLoginHttp => true
    | _ => false).length

/-! ## Helper lemmas -/

lemma qbLogin_trace (s : QBState) (env : QBEnv) :
    (qbLogin s env).2.2 = [Event.qbtLoginHttp] := by
  cases h : env.loginResp with
  | error e => simp [qbLogin, h]
  | ok o => cases o <;> simp [qbLogin, h]

lemma getTorrents_trace_cases (s : QBState) (env : QBEnv) :
    (getTorrents s env).2.2 = [Event.qbtGetTorrentsCall, Event.qbtLoginHttp] ∨
    (getTorrents s env).2.2 =
      [Event.qbtGetTorrentsCall, Event.qbtLoginHttp, Event.qbtListHttp] ∨
    (getTorrents s env).2.2 = [Event.qbtGetTorrentsCall, Event.qbtListHttp] := by
  cases hc : s.cookie with
  | some c =>
      cases hl : env.listResp with
      | ok ts => simp [getTorrents, qbListBody, hc, hl]
      | error e => simp [getTorrents, qbListBody, hc, hl]
  | none =>
      cases h : env.loginResp with
      | error e => simp [getTorrents, qbLogin, h, hc]
      | ok o =>
          cases o with
          | none => simp [getTorrents, qbLogin, h, hc]
          | some l =>
              cases hck : cookieOfHeader l with
              | none => simp [getTorrents, qbLogin, h, hc, hck]
              | some c =>
                  cases hl : env.listResp with
                  | ok ts => simp [getTorrents, qbLogin, qbListBody, h, hc, hck, hl]
                  | error e => simp [getTorrents, qbLogin, qbListBody, h, hc, hck, hl]

lemma sendMessage_call_texts (env : DiscordEnv) (t : String) :
    sendCallTexts (sendMessage env t) = [t] := by
  by_cases hr : env.isReady = false
  · simp [sendMessage, hr, sendCallTexts]
  · by_cases hch : env.channelId = ""
    · simp [sendMessage, hr, hch, sendCallTexts]
    · cases ho : env.outcome <;> simp [sendMessage, hr, hch, ho, sendCallTexts]

lemma sendMessage_no_qbt (env : DiscordEnv) (t : String) :
    getTorrentsCallCount (sendMessage env t) = 0 := by
  by_cases hr : env.isReady = false
  · simp [sendMessage, hr, getTorrentsCallCount]
  · by_cases hch : env.channelId = ""
    · simp [sendMessage, hr, hch, getTorrentsCallCount]
    · cases ho : env.outcome <;> simp [sendMessage, hr, hch, ho, getTorrentsCallCount]

lemma processAll_cons (qs : QBState) (denv : DiscordEnv) (qenvs : Nat → QBEnv)
    (c : NotionConfigItem) (cs : List NotionConfigItem) :
    processAll qs denv qenvs (c :: cs) =
      ((processAll (processConfig qs denv (qenvs 0) c).1 denv
          (fun n => qenvs (n + 1)) cs).1,
       (processConfig qs denv (qenvs 0) c).2 ++
         (processAll (processConfig qs denv (qenvs 0) c).1 denv
           (fun n => qenvs (n + 1)) cs).2) := by
  simp [processAll]

/-! ## Claim theorems -/

/-- C1: for an enabled item with name "Check Torrents" and type "Task", the
loop body of a dispatcher tick invokes the download-manager client's
torrent-listing operation (getTorrents) exactly once for that item, and
produces no notification send call for that item — neither a sendMessage
invocation nor a channel post — whatever the download manager returns. -/
theorem checkTorrents_lists_once_no_notification
    (qs : QBState) (denv : DiscordEnv) (qenv : QBEnv) (c : NotionConfigItem)
    (hEn : c.isEnabled = true) (hName : c.name = "Check Torrents")
    (hTy : c.type = "Task") :
    getTorrentsCallCount (processConfig qs denv qenv c).2 = 1 ∧
    sendCallTexts (processConfig qs denv qenv c).2 = [] ∧
    channelSendCount (processConfig qs denv qenv c).2 = 0 := by
  rcases hgt : getTorrents qs qenv with ⟨qs1, ts, evs⟩
  have htr := getTorrents_trace_cases qs qenv
  rw [hgt] at htr
  simp only at htr
  rcases htr with h | h | h <;>
    subst h <;>
    simp [processConfig, hEn, hName, hTy, hgt, getTorrentsCallCount,
      sendCallTexts, channelSendCount]

/-- C1 witness: a concrete enabled "Check Torrents"/"Task" item with three
torrents returned. -/
theorem checkTorrents_lists_once_no_notification_witness :
    (⟨"id1", "Check Torrents", "", true, "Task"⟩ : NotionConfigItem).isEnabled
        = true ∧
    getTorrentsCallCount
      (processConfig ⟨none⟩ ⟨true, "chan", ChannelOutcome.sendOk⟩
        ⟨Except.ok (some ["SID=x"]), Except.ok ["t1", "t2", "t3"], Except.ok ()⟩
        ⟨"id1", "Check Torrents", "", true, "Task"⟩).2 = 1 :=
  ⟨rfl,
   (checkTorrents_lists_once_no_notification ⟨none⟩
      ⟨true, "chan", ChannelOutcome.sendOk⟩
      ⟨Except.ok (some ["SID=x"]), Except.ok ["t1", "t2", "t3"], Except.ok ()⟩
      ⟨"id1", "Check Torrents", "", true, "Task"⟩ rfl rfl rfl).1⟩

/-- C2: for an enabled item of type "DiscordMessage", the loop body makes
exactly one notification send call, whose text is the item's value prefixed
with the fixed label "Message from Notion: " (so the value appears in the
sent text verbatim). -/
theorem discordMessage_sends_once_with_value
    (qs : QBState) (denv : DiscordEnv) (qenv : QBEnv) (c : NotionConfigItem)
    (hEn : c.isEnabled = true) (hTy : c.type = "DiscordMessage") :
    sendCallTexts (processConfig qs denv qenv c).2 =
      [notionMessageLabel ++ c.value] := by
  have hname : ¬(c.name = "Check Torrents" ∧ c.type = "Task") := by
    rintro ⟨-, h⟩
    rw [hTy] at h
    exact absurd h (by decide)
  simp [processConfig, hEn, hTy, hname, sendCallTexts]
  have := sendMessage_call_texts denv (notionMessageLabel ++ c.value)
  simpa [sendCallTexts] using this

/-- C2 witness: a concrete enabled "DiscordMessage" item with value
"hello". -/
theorem discordMessage_sends_once_with_value_witness :
    sendCallTexts
      (processConfig ⟨none⟩ ⟨true, "chan", ChannelOutcome.sendOk⟩
        ⟨Except.ok (some ["SID=x"]), Except.ok [], Except.ok ()⟩
        ⟨"id2", "Say hi", "hello", true, "DiscordMessage"⟩).2 =
      [notionMessageLabel ++ "hello"] :=
  discordMessage_sends_once_with_value ⟨none⟩
    ⟨true, "chan", ChannelOutcome.sendOk⟩
    ⟨Except.ok (some ["SID=x"]), Except.ok [], Except.ok ()⟩
    ⟨"id2", "Say hi", "hello", true, "DiscordMessage"⟩ rfl rfl

/-- C3: a disabled item is skipped entirely by the loop body: no event is
produced for it and the download-manager state is untouched, so neither the
torrent listing nor a notification send happens for it on any tick. -/
theorem disabled_item_no_side_effect
    (qs : QBState) (denv : DiscordEnv) (qenv : QBEnv) (c : NotionConfigItem)
    (h : c.isEnabled = false) :
    processConfig qs denv qenv c = (qs, []) := by
  simp [processConfig, h]

/-- C3 witness: a concrete disabled item produces the empty trace. -/
theorem disabled_item_no_side_effect_witness :
    processConfig ⟨none⟩ ⟨true, "chan", ChannelOutcome.sendOk⟩
      ⟨Except.ok (some ["SID=x"]), Except.ok ["t1"], Except.ok ()⟩
      ⟨"id3", "Check Torrents", "", false, "Task"⟩ = (⟨none⟩, []) :=
  disabled_item_no_side_effect ⟨none⟩ ⟨true, "chan", ChannelOutcome.sendOk⟩
    ⟨Except.ok (some ["SID=x"]), Except.ok ["t1"], Except.ok ()⟩
    ⟨"id3", "Check Torrents", "", false, "Task"⟩ rfl

lemma processConfig_enabled_head (qs : QBState) (denv : DiscordEnv)
    (qenv : QBEnv) (c : NotionConfigItem) (hEn : c.isEnabled = true) :
    ∃ tl, (processConfig qs denv qenv c).2 =
      Event.logProcessing c.name c.type :: tl := by
  simp only [processConfig, hEn, if_true]
  refine ⟨(if c.name = "Check Torrents" ∧ c.type = "Task" then
      ((getTorrents qs qenv).1, (getTorrents qs qenv).2.2) else (qs, [])).2 ++
      (if c.type = "DiscordMessage" then
        sendMessage denv (notionMessageLabel ++ c.value) else []), ?_⟩
  simp

/-- C4: every enabled item of the fetched list is processed by the tick —
its processing log appears in the tick trace — for all remote outcomes,
including those where the side effects of earlier items in the list fail
(the services catch every error internally, so one item's failure never
prevents the processing of the items after it). -/
theorem item_failure_does_not_block_later_items
    (qs : QBState) (denv : DiscordEnv) (qenvs : Nat → QBEnv)
    (cs : List NotionConfigItem) (c : NotionConfigItem)
    (hc : c ∈ cs) (hEn : c.isEnabled = true) :
    Event.logProcessing c.name c.type ∈ (processAll qs denv qenvs cs).2 := by
  induction cs generalizing qs qenvs with
  | nil => cases hc
  | cons d ds ih =>
      rcases hp : processConfig qs denv (qenvs 0) d with ⟨qs1, evs⟩
      rcases List.mem_cons.mp hc with h | h
      · subst h
        obtain ⟨tl, htl⟩ := processConfig_enabled_head qs denv (qenvs 0) c hEn
        rw [hp] at htl
        simp only at htl
        subst htl
        simp [processAll, hp]
      · simp only [processAll, hp]
        exact List.mem_append.mpr (Or.inr (ih qs1 (fun n => qenvs (n + 1)) h))

/-- C4 witness: with every remote call failing, the second item of a
two-item list is still processed after the first item's torrent query
fails. -/
theorem item_failure_does_not_block_later_items_witness :
    ((⟨"b", "Say hi", "hello", true, "DiscordMessage"⟩ : NotionConfigItem) ∈
      ([⟨"a", "Check Torrents", "", true, "Task"⟩,
        ⟨"b", "Say hi", "hello", true, "DiscordMessage"⟩] :
        List NotionConfigItem)) ∧
    Event.logProcessing "Say hi" "DiscordMessage" ∈
      (processAll ⟨none⟩ ⟨false, "", ChannelOutcome.fetchThrows⟩
        (fun _ => ⟨Except.error (), Except.error (), Except.error ()⟩)
        [⟨"a", "Check Torrents", "", true, "Task"⟩,
         ⟨"b", "Say hi", "hello", true, "DiscordMessage"⟩]).2 :=
  ⟨by decide,
   item_failure_does_not_block_later_items ⟨none⟩
     ⟨false, "", ChannelOutcome.fetchThrows⟩
     (fun _ => ⟨Except.error (), Except.error (), Except.error ()⟩)
     [⟨"a", "Check Torrents", "", true, "Task"⟩,
      ⟨"b", "Say hi", "hello", true, "DiscordMessage"⟩]
     ⟨"b", "Say hi", "hello", true, "DiscordMessage"⟩ (by decide) rfl⟩

/-- C5: when the config-store query fails, getConfigurations swallows the
error and returns the empty list, and the whole dispatcher tick completes
(it is a total function) with no side effect and an unchanged
download-manager state. -/
theorem fetch_failure_empty_and_no_effects
    (qs : QBState) (denv : DiscordEnv) (qenvs : Nat → QBEnv) :
    getConfigurations (Except.error ()) = [] ∧
    runTick qs denv qenvs (Except.error ()) = (qs, []) := by
  exact ⟨rfl, by simp [runTick, getConfigurations, processAll]⟩

/-- C6: with no session cookie held, getTorrents first performs a login;
when that login fails it returns the empty list, and its trace is exactly
the method entry followed by the login post — no listing HTTP request is
issued. -/
theorem login_failure_returns_empty_without_listing
    (s : QBState) (env : QBEnv) (hc : s.cookie = none)
    (hl : (qbLogin s env).2.1 = false) :
    (getTorrents s env).2.1 = [] ∧
    (getTorrents s env).2.2 = [Event.qbtGetTorrentsCall, Event.qbtLoginHttp] := by
  rcases hq : qbLogin s env with ⟨s1, ok, evs⟩
  rw [hq] at hl
  simp only at hl
  subst hl
  have hev : evs = [Event.qbtLoginHttp] := by
    have h := qbLogin_trace s env
    rw [hq] at h
    simpa using h
  subst hev
  simp [getTorrents, hc, hq]

/-- C6 witness: a fresh client whose login request throws. -/
theorem login_failure_returns_empty_without_listing_witness :
    ((⟨none⟩ : QBState).cookie = none) ∧
    (getTorrents ⟨none⟩
      ⟨Except.error (), Except.ok ["t1"], Except.ok ()⟩).2.1 = [] :=
  ⟨rfl,
   (login_failure_returns_empty_without_listing ⟨none⟩
     ⟨Except.error (), Except.ok ["t1"], Except.ok ()⟩ rfl rfl).1⟩

/-- C7: an enabled item matching neither the "Check Torrents"/"Task" branch
nor the "DiscordMessage" branch (for example type "Config") produces only
its processing log — no torrent query, no notification; and in the
two-item scenario [X/Config, Check Torrents/Task] only the second item
triggers a torrent-listing call (exactly one in the whole tick) while the
first triggers nothing. -/
theorem unmatched_item_no_op_and_scenario :
    (∀ (qs : QBState) (denv : DiscordEnv) (qenv : QBEnv)
        (c : NotionConfigItem),
        c.isEnabled = true →
        ¬(c.name = "Check Torrents" ∧ c.type = "Task") →
        c.type ≠ "DiscordMessage" →
        processConfig qs denv qenv c =
          (qs, [Event.logProcessing c.name c.type])) ∧
    (∀ (qs : QBState) (denv : DiscordEnv) (qenvs : Nat → QBEnv),
        processConfig qs denv (qenvs 0)
            ⟨"s1", "X", "", true, "Config"⟩ =
          (qs, [Event.logProcessing "X" "Config"]) ∧
        getTorrentsCallCount
          (processAll qs denv qenvs
            [⟨"s1", "X", "", true, "Config"⟩,
             ⟨"s2", "Check Torrents", "", true, "Task"⟩]).2 = 1) := by
  constructor
  · intro qs denv qenv c hEn h1 h2
    simp [processConfig, hEn, h1, h2]
  · intro qs denv qenvs
    constructor
    · simp [processConfig]
    · rcases hgt : getTorrents qs (qenvs 1) with ⟨qs1, ts, evs⟩
      have htr := getTorrents_trace_cases qs (qenvs 1)
      rw [hgt] at htr
      simp only at htr
      rcases htr with h | h | h <;> subst h <;>
        simp [processAll, processConfig, hgt, getTorrentsCallCount]

/-- C7 witness: a concrete enabled "Config" item triggers nothing beyond
its processing log. -/
theorem unmatched_item_no_op_and_scenario_witness :
    processConfig ⟨none⟩ ⟨true, "chan", ChannelOutcome.sendOk⟩
        ⟨Except.ok (some ["SID=x"]), Except.ok [], Except.ok ()⟩
        ⟨"s1", "X", "", true, "Config"⟩ =
      (⟨none⟩, [Event.logProcessing "X" "Config"]) :=
  unmatched_item_no_op_and_scenario.1 ⟨none⟩
    ⟨true, "chan", ChannelOutcome.sendOk⟩
    ⟨Except.ok (some ["SID=x"]), Except.ok [], Except.ok ()⟩
    ⟨"s1", "X", "", true, "Config"⟩ rfl (by decide) (by decide)

/-- C8: sendMessage is a no-op whenever the client is not ready or no
channel id is configured: the trace holds only the method entry, so no
channel fetch and no channel post happens, and nothing is raised (the
function is total). -/
theorem sendMessage_noop_not_ready_or_no_channel
    (env : DiscordEnv) (t : String)
    (h : env.isReady = false ∨ env.channelId = "") :
    sendMessage env t = [Event.discordSendMessageCall t] := by
  rcases h with h | h
  · simp [sendMessage, h]
  · cases hr : env.isReady
    · simp [sendMessage, hr]
    · simp [sendMessage, hr, h]

/-- C8 witness: a not-yet-ready client does not fetch or post. -/
theorem sendMessage_noop_not_ready_or_no_channel_witness :
    ((⟨false, "chan", ChannelOutcome.sendOk⟩ : DiscordEnv).isReady = false ∨
      (⟨false, "chan", ChannelOutcome.sendOk⟩ : DiscordEnv).channelId = "") ∧
    sendMessage ⟨false, "chan", ChannelOutcome.sendOk⟩ "hi" =
      [Event.discordSendMessageCall "hi"] :=
  ⟨Or.inl rfl,
   sendMessage_noop_not_ready_or_no_channel
     ⟨false, "chan", ChannelOutcome.sendOk⟩ "hi" (Or.inl rfl)⟩

/-- C9: once a cookie is held, no operation clears or refreshes it:
getTorrents and addTorrent leave the state untouched and never issue a
login post, and when the remote session has expired (the authenticated
calls throw) they merely return the empty list and false — the client
never re-authenticates. -/
theorem cookie_kept_never_reauthenticates
    (s : QBState) (env : QBEnv) (url ck : String)
    (hc : s.cookie = some ck) :
    (getTorrents s env).1 = s ∧
    loginHttpCount (getTorrents s env).2.2 = 0 ∧
    (env.listResp = Except.error () → (getTorrents s env).2.1 = []) ∧
    (addTorrent s env url).1 = s ∧
    loginHttpCount (addTorrent s env url).2.2 = 0 ∧
    (env.addResp = Except.error () → (addTorrent s env url).2.1 = false) := by
  cases hl : env.listResp <;> cases ha : env.addResp <;>
    simp [getTorrents, addTorrent, qbListBody, qbAddBody, hc, hl, ha,
      loginHttpCount]

/-- C9 witness: a client holding a cookie whose session has expired keeps
the cookie, gets an empty list and a false add result. -/
theorem cookie_kept_never_reauthenticates_witness :
    ((⟨some "SID=abc"⟩ : QBState).cookie = some "SID=abc") ∧
    (getTorrents ⟨some "SID=abc"⟩
      ⟨Except.ok none, Except.error (), Except.error ()⟩).2.1 = [] ∧
    (addTorrent ⟨some "SID=abc"⟩
      ⟨Except.ok none, Except.error (), Except.error ()⟩ "magnet:x").2.1
        = false :=
  ⟨rfl,
   (cookie_kept_never_reauthenticates ⟨some "SID=abc"⟩
     ⟨Except.ok none, Except.error (), Except.error ()⟩ "magnet:x"
     "SID=abc" rfl).2.2.1 rfl,
   (cookie_kept_never_reauthenticates ⟨some "SID=abc"⟩
     ⟨Except.ok none, Except.error (), Except.error ()⟩ "magnet:x"
     "SID=abc" rfl).2.2.2.2.2 rfl⟩

/-- C10: every page written by addItem has its Enabled checkbox set to true
— the signature offers no way to write false — its type defaults to
"Info", and the item read back from that page is enabled, hence not
skipped by the dispatcher. -/
theorem addItem_always_enabled (n v ty id : String) :
    (addItem n v ty).enabledCheckbox = true ∧
    (addItem n v).type = "Info" ∧
    (mapPage (writtenAsRaw (addItem n v ty) id)).isEnabled = true :=
  ⟨rfl, rfl, rfl⟩

end Xenopen
